/- Verification of the scandiQA training script (src/train.py) against its
   natural-language specification.

   The script's control flow, string manipulation and score-report assembly are
   embedded shallowly below.  External collaborators (the HuggingFace trainer,
   the QAPreparer, the wandb tracking service and the squad_v2 metric) are
   modelled as parameters; fallibility of each call site is modelled by an
   oracle `fail : Stage → Bool` saying which external call raises, and the
   Python exception semantics (an uncaught exception aborts the rest of the
   function body) is mirrored by early return of the effect trace. -/
import Mathlib

namespace ScandiQA

/-! ## Data model (spec section 3, mirroring the records used in train.py) -/

/-- The answers field of a SQuAD-style example:
`{text: list of string, answer_start: list of int}` (train.py lines 143-144). -/
structure Answers where
  text : List String
  answer_start : List Nat
  deriving Repr, DecidableEq

/-- An Example record: `{id, question, context, answers}`. -/
structure Example where
  id : String
  question : String
  context : String
  answers : Answers
  deriving Repr, DecidableEq

/-- A dataset is its sequence of examples. -/
structure Dataset where
  examples : List Example
  deriving Repr, DecidableEq

/-- A `DatasetDict`: named splits, modelled as an association list because the
Python object is a mapping keyed by split name. -/
def DatasetDict := List (String × Dataset)

/-- Lookup of `dd[key]` on a DatasetDict; `none` models a Python `KeyError`. -/
def getSplit (dd : DatasetDict) (key : String) : Option Dataset :=
  (dd.find? (fun kv => kv.1 = key)).map (fun kv => kv.2)

/-- The configuration record (config.py is not under src/; the fields are
exactly those train.py reads: lines 45, 53-60 and 98). -/
structure Config where
  model_id : String
  learning_rate : ℚ
  batch_size : Nat
  epochs : ℚ
  weight_decay : ℚ
  gradient_accumulation_steps : Nat
  betas : ℚ × ℚ
  push_to_hub : Bool
  deriving Repr, DecidableEq

/-- A prediction record as built in evaluate (train.py lines 137-140):
`dict(id=k, prediction_text=v, no_answer_probability=0.)`. -/
structure PredictionRecord where
  id : String
  prediction_text : String
  no_answer_probability : ℚ
  deriving Repr, DecidableEq

/-- A reference record as built in evaluate (train.py lines 141-146). -/
structure Reference where
  id : String
  answers : Answers
  deriving Repr, DecidableEq

/-- The value returned by `metric.compute` for the squad_v2 metric, restricted
to the two entries the script reads (train.py line 150). -/
structure MetricScores where
  exact : ℚ
  f1 : ℚ
  deriving Repr, DecidableEq

/-! ## Python string helper: `s.split("/")` and `[-1]` indexing -/

/-- Python's `s.split('/')` on the character list of `s`: splits at every
occurrence of `'/'`, keeping empty pieces, and yields `[[]]` on the empty
string — exactly CPython's semantics for `str.split` with an explicit
separator. -/
def pySplitOnSlash : List Char → List (List Char)
  | [] => [[]]
  | c :: cs =>
      match pySplitOnSlash cs with
      | [] => [[]]
      | r :: rs => if c = '/' then [] :: r :: rs else (c :: r) :: rs

/-- The value of `output_model_id.split('/')[-1]` (train.py lines 49 and
89): the last piece of the slash-split. -/
def lastSlashComponent (s : String) : String :=
  String.mk ((pySplitOnSlash s.data).getLastD [])

/-- The score-file path built at train.py line 89:
`f'{output_model_id.split("/")[-1]}-scores.jsonl'`. -/
def scorePath (output_model_id : String) : String :=
  lastSlashComponent output_model_id ++ "-scores.jsonl"

/-! ## evaluate (train.py lines 103-150)

The preparation of the test set, the forward pass and the postprocessing are
performed by external collaborators; their composite result — the mapping from
example id to predicted answer string — enters as `predictionMap`, and the
external metric's `compute` enters as `metric`.  What is embedded here is the
code of `evaluate` itself: the construction of the prediction records with
`no_answer_probability=0.` (lines 137-140), of the reference records
(lines 141-146), and the final report `dict(em=scores['exact'],
f1=scores['f1'])` (line 150), modelled as an association list because the
Python value is a dict. -/

/-- Lines 137-140 of train.py: every postprocessed prediction `(k, v)` becomes
`dict(id=k, prediction_text=v, no_answer_probability=0.)`.  The probability is
the literal constant `0.`; the function reads no configuration. -/
def toMetricPredictions (predictionMap : List (String × String)) :
    List PredictionRecord :=
  predictionMap.map (fun kv => ⟨kv.1, kv.2, 0⟩)

/-- Lines 141-146 of train.py: each example of the test dataset becomes
`dict(id=..., answers=dict(text=..., answer_start=...))`. -/
def toMetricReferences (test_dataset : Dataset) : List Reference :=
  test_dataset.examples.map
    (fun ex => ⟨ex.id, ⟨ex.answers.text, ex.answers.answer_start⟩⟩)

/-- The `evaluate` function of train.py (lines 103-150), with the external
calls factored out as arguments: returns the dict
`dict(em=scores['exact'], f1=scores['f1'])`. -/
def evaluate (test_dataset : Dataset)
    (predictionMap : List (String × String))
    (metric : List PredictionRecord → List Reference → MetricScores) :
    List (String × ℚ) :=
  let predictions := toMetricPredictions predictionMap
  let references := toMetricReferences test_dataset
  let scores := metric predictions references
  [("em", scores.exact), ("f1", scores.f1)]

/-! ## The train orchestrator (train.py lines 22-99) as an effect trace -/

/-- The external call sites inside `train` (and inside the `evaluate` it
invokes), in source order.  `fail s = true` models that call raising an
exception, which aborts the rest of the function body. -/
inductive Stage
  | prepareData   -- line 42: preparer.prepare_train_val_datasets
  | loadModel     -- line 45: AutoModelForQuestionAnswering.from_pretrained
  | fit           -- line 76: trainer.train()
  | prepareTest   -- line 121: preparer.prepare_test_dataset
  | predict       -- line 124: trainer.predict
  | postprocess   -- line 127: preparer.postprocess_predictions
  | loadMetric    -- line 134: load_metric
  | computeMetric -- line 147: metric.compute
  | writeScore    -- lines 90-92: score_path.open / f.write
  | finish        -- line 95: wandb.finish()
  | push          -- line 99: trainer.push_to_hub()
  deriving Repr, DecidableEq

/-- The observable effects of one run of `train`. -/
structure RunEffects where
  /-- count of `wandb.init` calls that completed (line 35) -/
  wandbInitCount : Nat
  /-- count of `wandb.finish` calls that completed (line 95) -/
  wandbFinishCount : Nat
  /-- files written, as (path, JSON-object content) pairs (lines 89-92) -/
  filesWritten : List (String × List (String × ℚ))
  /-- whether the explicit `trainer.push_to_hub()` of line 99 ran -/
  pushedToHub : Bool
  /-- split lookups performed, as (dict name, key) pairs
      (lines 69, 70 on `prepared`; line 79 on `dataset_dict`) -/
  splitAccesses : List (String × String)
  /-- the dataset handed to `evaluate` as `test_dataset` (line 82) -/
  testDatasetUsed : Option Dataset
  deriving Repr, DecidableEq

/-- The empty trace, before `train` has done anything. -/
def RunEffects.initial : RunEffects :=
  ⟨0, 0, [], false, [], none⟩

/-- The `train` function of train.py (lines 22-99) as a trace of its
effects.  External collaborators appear as arguments: `prepared` is what
`preparer.prepare_train_val_datasets` returns when it succeeds,
`predictionMap` is the postprocessed prediction mapping, and `metric` is the
loaded squad_v2 metric's compute.  The statements run in source order; a
raising call (per `fail`) ends the run with the effects produced so far, since
`train` installs no exception handler. -/
def train (fail : Stage → Bool) (dataset_dict : DatasetDict)
    (output_model_id : String) (config : Config)
    (predictionMap : List (String × String))
    (metric : List PredictionRecord → List Reference → MetricScores) :
    RunEffects :=
  -- line 35: wandb.init(...)
  let e : RunEffects := { RunEffects.initial with wandbInitCount := 1 }
  -- line 42: prepared = preparer.prepare_train_val_datasets(dataset_dict)
  if fail .prepareData then e else
  -- line 45: model = AutoModelForQuestionAnswering.from_pretrained(...)
  if fail .loadModel then e else
  -- lines 66-73: Trainer(..., train_dataset=prepared['train'],
  --                        eval_dataset=prepared['validation'], ...)
  let e := { e with splitAccesses :=
                e.splitAccesses ++ [("prepared", "train"), ("prepared", "validation")] }
  -- line 76: trainer.train()
  if fail .fit then e else
  -- line 79: test_dataset = dataset_dict['validation']
  match getSplit dataset_dict "validation" with
  | none => e  -- a KeyError aborts the run
  | some test_dataset =>
  let e := { e with splitAccesses := e.splitAccesses ++ [("dataset_dict", "validation")],
                    testDatasetUsed := some test_dataset }
  -- line 82: scores = evaluate(test_dataset, trainer, preparer), which runs
  -- lines 121, 124, 127, 134 and 147 in order
  if fail .prepareTest then e else
  if fail .predict then e else
  if fail .postprocess then e else
  if fail .loadMetric then e else
  if fail .computeMetric then e else
  let scores := evaluate test_dataset predictionMap metric
  -- lines 89-92: score_path.open('w'); f.write(json.dumps(scores))
  if fail .writeScore then e else
  let e := { e with filesWritten :=
                e.filesWritten ++ [(scorePath output_model_id, scores)] }
  -- line 95: wandb.finish()
  if fail .finish then e else
  let e := { e with wandbFinishCount := e.wandbFinishCount + 1 }
  -- lines 98-99: if config.push_to_hub: trainer.push_to_hub()
  if config.push_to_hub then
    if fail .push then e else { e with pushedToHub := true }
  else e

/-- The training-arguments record built at train.py lines 48-63, with the
fields in source order. -/
structure TrainingArgumentsModel where
  output_dir : String
  evaluation_strategy : String
  eval_steps : Nat
  logging_steps : Nat
  learning_rate : ℚ
  per_device_train_batch_size : Nat
  per_device_eval_batch_size : Nat
  num_train_epochs : ℚ
  weight_decay : ℚ
  gradient_accumulation_steps : Nat
  adam_beta1 : ℚ
  adam_beta2 : ℚ
  push_to_hub : Bool
  hub_model_id : String
  deriving Repr, DecidableEq

/-- The `TrainingArguments(...)` construction of train.py lines 48-63. -/
def mkTrainingArguments (output_model_id : String) (config : Config) :
    TrainingArgumentsModel where
  output_dir := lastSlashComponent output_model_id
  evaluation_strategy := "steps"
  eval_steps := 1000
  logging_steps := 100
  learning_rate := config.learning_rate
  per_device_train_batch_size := config.batch_size
  per_device_eval_batch_size := config.batch_size
  num_train_epochs := config.epochs
  weight_decay := config.weight_decay
  gradient_accumulation_steps := config.gradient_accumulation_steps
  adam_beta1 := config.betas.1
  adam_beta2 := config.betas.2
  push_to_hub := true
  hub_model_id := output_model_id

/-! ## The Evaluator (spec section 4.1)

The id reconciliation and the exact-match/F1 computation are performed inside
the external `squad_v2` metric library, whose source is not under src/; the
definitions below are therefore modelled from the spec's own description of
the Evaluator component. -/

/-- The error taxonomy entry for mismatched prediction/reference id sets
(spec sections 4.1 and 7). -/
inductive EvalError
  | MismatchedIdError
  deriving Repr, DecidableEq

/-- Modelled from the spec: answer normalization — "lowercase, strip
punctuation/articles, collapse whitespace" — returned as the token list
(the normalized string is the tokens joined by single spaces).  Punctuation
is taken to be any character that is neither alphanumeric nor a space. -/
def normalizeTokens (s : String) : List String :=
  let lowered := s.data.map Char.toLower
  let stripped := lowered.filter (fun c => c.isAlphanum || c == ' ')
  let words := (String.mk stripped).splitOn " "
  (words.filter (fun w => !(w == ""))).filter
    (fun w => !(w == "a" || w == "an" || w == "the"))

/-- Modelled from the spec: the normalized answer string. -/
def normalizeAnswer (s : String) : String :=
  String.intercalate " " (normalizeTokens s)

/-- Modelled from the spec: per-example exact match — 1.0 if the predicted
string equals any of the reference answer texts after normalization, else
0.0; an unanswerable example (no reference answers) scores 1.0 exactly when
the prediction is also empty. -/
def exactMatchScore (pred : String) (refTexts : List String) : ℚ :=
  if refTexts.isEmpty then
    if normalizeAnswer pred = "" then 1 else 0
  else if refTexts.any (fun t => normalizeAnswer t == normalizeAnswer pred) then 1
  else 0

/-- Number of common tokens between two token lists, counted with
multiplicity (multiset intersection). -/
def countCommon (xs ys : List String) : Nat :=
  ((xs : Multiset String) ∩ (ys : Multiset String)).card

/-- Modelled from the spec: token-overlap F1 between a predicted token list
and one reference token list: harmonic mean of precision and recall of the
common-token count; degenerate cases (an empty side, no overlap) score 1.0
only when both sides are empty. -/
def tokenF1 (predTokens goldTokens : List String) : ℚ :=
  let common : ℚ := countCommon predTokens goldTokens
  if predTokens.length = 0 ∨ goldTokens.length = 0 then
    if predTokens.length = 0 ∧ goldTokens.length = 0 then 1 else 0
  else if common = 0 then 0
  else
    let p : ℚ := common / predTokens.length
    let r : ℚ := common / goldTokens.length
    2 * p * r / (p + r)

/-- Modelled from the spec: per-example F1 — token-overlap F1 against the
best-matching reference answer (ties broken by taking the maximum over all
reference answer strings); an unanswerable example scores 1.0 exactly when
the prediction is empty. -/
def f1Score (pred : String) (refTexts : List String) : ℚ :=
  if refTexts.isEmpty then
    if normalizeAnswer pred = "" then 1 else 0
  else
    (refTexts.map (fun t => tokenF1 (normalizeTokens pred) (normalizeTokens t))).foldr
      max 0

/-- The ScoreReport record of spec section 3. -/
structure ScoreReport where
  em : ℚ
  f1 : ℚ
  deriving Repr, DecidableEq

/-- Modelled from the spec: `score(pairs) -> ScoreReport` — each pair is a
predicted answer string together with the reference answer texts of its
example; the aggregate is the mean over all pairs, scaled to a percentage. -/
def score (pairs : List (String × List String)) : ScoreReport where
  em := 100 * (pairs.map (fun pr => exactMatchScore pr.1 pr.2)).sum / pairs.length
  f1 := 100 * (pairs.map (fun pr => f1Score pr.1 pr.2)).sum / pairs.length

/-- Modelled from the spec: `reconcile(predictions, references)` — matches
each reference example with the prediction bearing its id and fails with
`MismatchedIdError` if some prediction has no matching reference or some
reference has no matching prediction. -/
def reconcile (predictions : List (String × String)) (references : List Example) :
    Except EvalError (List (String × Example)) :=
  if (predictions.all fun p => references.any fun r => r.id == p.1) &&
     (references.all fun r => predictions.any fun p => p.1 == r.id) then
    Except.ok (references.map fun r =>
      (((predictions.find? fun p => p.1 == r.id).map Prod.snd).getD "", r))
  else
    Except.error EvalError.MismatchedIdError

/-- Modelled from the spec: the external squad_v2 metric's `compute`, which
pairs each reference with the prediction of the same id and aggregates
exact-match and F1 as percentages; the script reads its result under the keys
`exact` and `f1` (train.py line 150). -/
def squadV2Compute (preds : List PredictionRecord) (refs : List Reference) :
    MetricScores :=
  let pairs := refs.map fun r =>
    (((preds.find? fun p => p.id == r.id).map
        (fun p => p.prediction_text)).getD "",
     r.answers.text)
  let rep := score pairs
  ⟨rep.em, rep.f1⟩

/-! ## The command-line entry point (train.py lines 153-210) -/

/-- The file and artifact names the `__main__` block derives from the
language code (train.py lines 163-166 and 209). -/
structure MainSelections where
  train_file : String
  validation_file : String
  output_model_id : String
  deriving Repr, DecidableEq

/-- The argument handling of the `__main__` block (train.py lines 153-210):
with no positional argument it raises
`ValueError('Please provide a language code')` — an uncaught exception, so
the process exits non-zero — and otherwise `sys.argv[1]` is the language
code, interpolated into the two dataset file names and the output model id. -/
def mainEntry (argv : List String) : Except String MainSelections :=
  if argv.length > 1 then
    let language_code := argv.getD 1 ""
    Except.ok
      ⟨"datasets/squad_v2-train-" ++ language_code ++ ".jsonl",
       "datasets/squad_v2-validation-" ++ language_code ++ ".jsonl",
       "saattrupdan/xlmr-base-texas-squad-" ++ language_code⟩
  else
    Except.error "Please provide a language code"

/-! ## Concrete sample data used by witnesses -/

/-- A concrete configuration used to instantiate theorems on sample runs. -/
def sampleConfig : Config :=
  ⟨"xlm-roberta-base", 2 / 100000, 8, 3, 1 / 100, 4, (9 / 10, 999 / 1000), true⟩

/-- A metric stub used by witnesses that do not depend on metric values. -/
def zeroMetric : List PredictionRecord → List Reference → MetricScores :=
  fun _ _ => ⟨0, 0⟩

/-- A concrete dataset dict with empty train and validation splits. -/
def sampleDD : DatasetDict :=
  [("train", ⟨[]⟩), ("validation", ⟨[]⟩)]

/-! ## Theorems -/

/-- C6: the aggregate score computation is invariant under any permutation
of the (prediction, reference) pairs sequence: both the em and the f1
aggregate are a mean over the pairs, so reordering the sequence changes
neither. -/
theorem score_perm_invariant (p₁ p₂ : List (String × List String))
    (h : p₁.Perm p₂) : score p₁ = score p₂ := by
  unfold score
  rw [(h.map (fun pr => exactMatchScore pr.1 pr.2)).sum_eq,
      (h.map (fun pr => f1Score pr.1 pr.2)).sum_eq, h.length_eq]

/-- Witness for C6: scoring a concrete reordering of two pairs yields the
same report. -/
theorem score_perm_invariant_witness :
    score [("Paris", ["Paris"]), ("London", ["Berlin"])] =
      score [("London", ["Berlin"]), ("Paris", ["Paris"])] :=
  score_perm_invariant _ _ (by decide)

/-- C7: every prediction record handed to the metric carries a no-answer
probability of exactly 0 — the literal constant `0.` of train.py line 138;
`toMetricPredictions` takes no configuration input, so no configured
threshold can influence it. -/
theorem no_answer_probability_zero (predictionMap : List (String × String))
    (p : PredictionRecord) (hp : p ∈ toMetricPredictions predictionMap) :
    p.no_answer_probability = 0 := by
  unfold toMetricPredictions at hp
  obtain ⟨kv, _, rfl⟩ := List.mem_map.mp hp
  rfl

/-- Witness for C7: the record built from a concrete prediction pair has
no-answer probability 0. -/
theorem no_answer_probability_zero_witness :
    (⟨"q1", "Paris", 0⟩ : PredictionRecord) ∈ toMetricPredictions [("q1", "Paris")] ∧
    (⟨"q1", "Paris", 0⟩ : PredictionRecord).no_answer_probability = 0 :=
  ⟨by decide, no_answer_probability_zero [("q1", "Paris")] _ (by decide)⟩

/-- C4: invoked with no positional argument (argv holds only the program
name) the entry point raises `ValueError('Please provide a language code')`,
an uncaught exception and hence a non-zero exit; invoked with one positional
language-code argument, that code is interpolated into both input dataset
file names and into the output model id. -/
theorem main_entry_argument_handling (prog language_code : String) :
    mainEntry [prog] = Except.error "Please provide a language code" ∧
    mainEntry [prog, language_code] = Except.ok
      ⟨"datasets/squad_v2-train-" ++ language_code ++ ".jsonl",
       "datasets/squad_v2-validation-" ++ language_code ++ ".jsonl",
       "saattrupdan/xlmr-base-texas-squad-" ++ language_code⟩ := by
  exact ⟨rfl, rfl⟩

/-- C1 counterexample: the spec promises the tracking session is closed even
when fitting raises, but train.py has no try/finally around lines 35-95: on a
run whose `trainer.train()` call raises, `wandb.init` has run (the session is
open) yet `wandb.finish` never runs, so it is not closed exactly once. -/
theorem train_finish_skipped_when_fit_raises :
    (train (fun s => s == Stage.fit) sampleDD
        "saattrupdan/xlmr-base-texas-squad-da" sampleConfig [] zeroMetric).wandbInitCount
      = 1 ∧
    ¬((train (fun s => s == Stage.fit) sampleDD
        "saattrupdan/xlmr-base-texas-squad-da" sampleConfig [] zeroMetric).wandbFinishCount
      = 1) := by
  constructor
  · rfl
  · decide

/-- C1 (amended): the tracking session is opened exactly once at run start,
and it is closed (exactly once) precisely on runs where preparation, model
loading, fitting, the whole of evaluation, the validation-split lookup and
the score-file write all succeed; if any of those stages raises, `train`
propagates the exception past line 95 and the session is never closed. -/
theorem train_finish_exactly_on_success (fail : Stage → Bool)
    (dd : DatasetDict) (output_model_id : String) (config : Config)
    (pm : List (String × String))
    (metric : List PredictionRecord → List Reference → MetricScores) :
    (train fail dd output_model_id config pm metric).wandbInitCount = 1 ∧
    ((train fail dd output_model_id config pm metric).wandbFinishCount = 1 ↔
      (fail .prepareData = false ∧ fail .loadModel = false ∧
       fail .fit = false ∧ (getSplit dd "validation").isSome = true ∧
       fail .prepareTest = false ∧ fail .predict = false ∧
       fail .postprocess = false ∧ fail .loadMetric = false ∧
       fail .computeMetric = false ∧ fail .writeScore = false ∧
       fail .finish = false)) := by
  unfold train
  cases h1 : fail Stage.prepareData
  case true => simp [RunEffects.initial]
  case false =>
  cases h2 : fail Stage.loadModel
  case true => simp [RunEffects.initial]
  case false =>
  cases h3 : fail Stage.fit
  case true => simp [RunEffects.initial]
  case false =>
  cases hds : getSplit dd "validation"
  case none => simp [hds, RunEffects.initial]
  case some ds =>
  cases h4 : fail Stage.prepareTest
  case true => simp [hds, RunEffects.initial]
  case false =>
  cases h5 : fail Stage.predict
  case true => simp [hds, RunEffects.initial]
  case false =>
  cases h6 : fail Stage.postprocess
  case true => simp [hds, RunEffects.initial]
  case false =>
  cases h7 : fail Stage.loadMetric
  case true => simp [hds, RunEffects.initial]
  case false =>
  cases h8 : fail Stage.computeMetric
  case true => simp [hds, RunEffects.initial]
  case false =>
  cases h9 : fail Stage.writeScore
  case true => simp [hds, RunEffects.initial]
  case false =>
  cases h10 : fail Stage.finish
  case true => simp [hds, RunEffects.initial]
  case false =>
  cases hp : config.push_to_hub <;> cases hq : fail Stage.push <;>
    simp [hds, RunEffects.initial]

/-- C2: if preparation, model loading, fitting, or any stage of scoring
(test preparation, prediction, postprocessing, metric loading or metric
computation) raises, `train` writes no score file at all: the write of
lines 89-92 is only reached after scoring has completed, so a failed run
leaves no partial output file. -/
theorem no_score_file_on_failure (fail : Stage → Bool) (dd : DatasetDict)
    (output_model_id : String) (config : Config)
    (pm : List (String × String))
    (metric : List PredictionRecord → List Reference → MetricScores)
    (h : fail .prepareData = true ∨ fail .loadModel = true ∨
         fail .fit = true ∨ fail .prepareTest = true ∨
         fail .predict = true ∨ fail .postprocess = true ∨
         fail .loadMetric = true ∨ fail .computeMetric = true) :
    (train fail dd output_model_id config pm metric).filesWritten = [] := by
  unfold train
  cases h1 : fail Stage.prepareData
  case true => rfl
  case false =>
  cases h2 : fail Stage.loadModel
  case true => rfl
  case false =>
  cases h3 : fail Stage.fit
  case true => rfl
  case false =>
  cases hds : getSplit dd "validation"
  case none => rfl
  case some ds =>
  cases h4 : fail Stage.prepareTest
  case true => rfl
  case false =>
  cases h5 : fail Stage.predict
  case true => rfl
  case false =>
  cases h6 : fail Stage.postprocess
  case true => rfl
  case false =>
  cases h7 : fail Stage.loadMetric
  case true => rfl
  case false =>
  cases h8 : fail Stage.computeMetric
  case true => rfl
  case false =>
  simp [h1, h2, h3, h4, h5, h6, h7, h8] at h

/-- Witness for C2: a concrete run whose metric computation raises writes no
file. -/
theorem no_score_file_on_failure_witness :
    (train (fun s => s == Stage.computeMetric) sampleDD
        "saattrupdan/xlmr-base-texas-squad-da" sampleConfig []
        zeroMetric).filesWritten = [] :=
  no_score_file_on_failure _ _ _ _ _ _
    (Or.inr (Or.inr (Or.inr (Or.inr (Or.inr (Or.inr (Or.inr rfl)))))))

/-- C8: once fitting has finished, the dataset handed to the final
evaluation is exactly the `validation` split of the input dataset dict —
the very split key whose prepared form served as the trainer's eval dataset
— and the only split lookups `train` ever performs are `train` and
`validation` on the prepared dict and `validation` on the input dict; no
`test` split is ever loaded or scored. -/
theorem final_eval_on_validation_split (fail : Stage → Bool)
    (dd : DatasetDict) (output_model_id : String) (config : Config)
    (pm : List (String × String))
    (metric : List PredictionRecord → List Reference → MetricScores)
    (ds : Dataset)
    (h1 : fail .prepareData = false) (h2 : fail .loadModel = false)
    (h3 : fail .fit = false)
    (hds : getSplit dd "validation" = some ds) :
    (train fail dd output_model_id config pm metric).testDatasetUsed = some ds ∧
    (train fail dd output_model_id config pm metric).splitAccesses =
      [("prepared", "train"), ("prepared", "validation"),
       ("dataset_dict", "validation")] := by
  unfold train
  rw [h1, h2, h3, hds]
  cases h4 : fail Stage.prepareTest
  case true => exact ⟨rfl, rfl⟩
  case false =>
  cases h5 : fail Stage.predict
  case true => exact ⟨rfl, rfl⟩
  case false =>
  cases h6 : fail Stage.postprocess
  case true => exact ⟨rfl, rfl⟩
  case false =>
  cases h7 : fail Stage.loadMetric
  case true => exact ⟨rfl, rfl⟩
  case false =>
  cases h8 : fail Stage.computeMetric
  case true => exact ⟨rfl, rfl⟩
  case false =>
  cases h9 : fail Stage.writeScore
  case true => exact ⟨rfl, rfl⟩
  case false =>
  cases h10 : fail Stage.finish
  case true => exact ⟨rfl, rfl⟩
  case false =>
  cases hp : config.push_to_hub <;> cases hq : fail Stage.push <;>
    exact ⟨rfl, rfl⟩

/-- Witness for C8: on a concrete successful run, the final evaluation
dataset is the validation split and only train/validation keys are looked
up. -/
theorem final_eval_on_validation_split_witness :
    (train (fun _ => false) sampleDD "saattrupdan/xlmr-base-texas-squad-da"
        sampleConfig [] zeroMetric).testDatasetUsed = some ⟨[]⟩ ∧
    (train (fun _ => false) sampleDD "saattrupdan/xlmr-base-texas-squad-da"
        sampleConfig [] zeroMetric).splitAccesses =
      [("prepared", "train"), ("prepared", "validation"),
       ("dataset_dict", "validation")] :=
  final_eval_on_validation_split _ _ _ _ _ _ ⟨[]⟩ rfl rfl rfl (by decide)

/-- C10: the training-arguments record is always built with
`push_to_hub=True` and `hub_model_id=output_model_id`, whatever
`config.push_to_hub` says (train.py lines 61-62), while the explicit
`trainer.push_to_hub()` of line 99 runs, on a run where no external call
raises, exactly when `config.push_to_hub` is true. -/
theorem training_args_push_always_and_final_push_iff (fail : Stage → Bool)
    (dd : DatasetDict) (output_model_id : String) (config : Config)
    (pm : List (String × String))
    (metric : List PredictionRecord → List Reference → MetricScores)
    (ds : Dataset)
    (hok : ∀ s, fail s = false)
    (hds : getSplit dd "validation" = some ds) :
    (mkTrainingArguments output_model_id config).push_to_hub = true ∧
    (mkTrainingArguments output_model_id config).hub_model_id =
      output_model_id ∧
    (train fail dd output_model_id config pm metric).pushedToHub =
      config.push_to_hub := by
  refine ⟨rfl, rfl, ?_⟩
  unfold train
  simp [hok, hds, RunEffects.initial]
  cases hp : config.push_to_hub <;> simp [RunEffects.initial]

/-- Witness for C10: on a concrete successful run whose configuration
enables the hub push, the final push runs, and the training arguments carry
`push_to_hub=True` with the output model id. -/
theorem training_args_push_witness :
    (mkTrainingArguments "saattrupdan/xlmr-base-texas-squad-da"
        sampleConfig).push_to_hub = true ∧
    (mkTrainingArguments "saattrupdan/xlmr-base-texas-squad-da"
        sampleConfig).hub_model_id = "saattrupdan/xlmr-base-texas-squad-da" ∧
    (train (fun _ => false) sampleDD "saattrupdan/xlmr-base-texas-squad-da"
        sampleConfig [] zeroMetric).pushedToHub = sampleConfig.push_to_hub :=
  training_args_push_always_and_final_push_iff _ _ _ _ _ _ ⟨[]⟩
    (fun _ => rfl) (by decide)

/-! ### Range lemmas for the spec-modelled metric -/

/-- Per-example exact match lies in the unit interval. -/
lemma exactMatchScore_bounds (p : String) (ts : List String) :
    0 ≤ exactMatchScore p ts ∧ exactMatchScore p ts ≤ 1 := by
  unfold exactMatchScore
  split_ifs <;> norm_num

/-- The common-token count is at most the number of predicted tokens. -/
lemma countCommon_le_left (xs ys : List String) :
    countCommon xs ys ≤ xs.length := by
  unfold countCommon
  calc ((xs : Multiset String) ∩ (ys : Multiset String)).card
      ≤ (xs : Multiset String).card :=
        Multiset.card_le_card (Multiset.inter_le_left _ _)
    _ = xs.length := Multiset.coe_card xs

/-- The common-token count is at most the number of gold tokens. -/
lemma countCommon_le_right (xs ys : List String) :
    countCommon xs ys ≤ ys.length := by
  unfold countCommon
  calc ((xs : Multiset String) ∩ (ys : Multiset String)).card
      ≤ (ys : Multiset String).card :=
        Multiset.card_le_card (Multiset.inter_le_right _ _)
    _ = ys.length := Multiset.coe_card ys

/-- Token-overlap F1 lies in the unit interval. -/
lemma tokenF1_bounds (pt gt : List String) :
    0 ≤ tokenF1 pt gt ∧ tokenF1 pt gt ≤ 1 := by
  unfold tokenF1
  dsimp only
  split_ifs with h1 h2 hc
  · norm_num
  · norm_num
  · norm_num
  · push_neg at h1
    obtain ⟨hm, hn⟩ := h1
    have hm' : (0 : ℚ) < pt.length := by
      exact_mod_cast Nat.pos_of_ne_zero hm
    have hn' : (0 : ℚ) < gt.length := by
      exact_mod_cast Nat.pos_of_ne_zero hn
    have hc0 : (0 : ℚ) ≤ (countCommon pt gt : ℚ) := Nat.cast_nonneg _
    have hcm : (countCommon pt gt : ℚ) ≤ pt.length := by
      exact_mod_cast countCommon_le_left pt gt
    have hcn : (countCommon pt gt : ℚ) ≤ gt.length := by
      exact_mod_cast countCommon_le_right pt gt
    have hp0 : 0 ≤ (countCommon pt gt : ℚ) / pt.length := by positivity
    have hr0 : 0 ≤ (countCommon pt gt : ℚ) / gt.length := by positivity
    have hp1 : (countCommon pt gt : ℚ) / pt.length ≤ 1 :=
      (div_le_one hm').mpr hcm
    have hr1 : (countCommon pt gt : ℚ) / gt.length ≤ 1 :=
      (div_le_one hn').mpr hcn
    constructor
    · positivity
    · rcases eq_or_lt_of_le (add_nonneg hp0 hr0) with h | h
      · rw [← h]
        norm_num
      · rw [div_le_one h]
        nlinarith [mul_le_of_le_one_right hp0 hr1, mul_le_of_le_one_left hr0 hp1]

/-- A right fold by max starting at 0 is nonnegative. -/
lemma foldr_max_nonneg (l : List ℚ) : 0 ≤ l.foldr max 0 := by
  induction l with
  | nil => simp
  | cons x l ih => exact le_trans ih (le_max_right x _)

/-- A right fold by max starting at 0 over values at most 1 is at most 1. -/
lemma foldr_max_le_one (l : List ℚ) (h : ∀ x ∈ l, x ≤ 1) :
    l.foldr max 0 ≤ 1 := by
  induction l with
  | nil => norm_num
  | cons x l ih =>
    simp only [List.foldr_cons]
    exact max_le (h x (List.mem_cons_self x l))
      (ih fun y hy => h y (List.mem_cons_of_mem x hy))

/-- Per-example F1 lies in the unit interval. -/
lemma f1Score_bounds (p : String) (ts : List String) :
    0 ≤ f1Score p ts ∧ f1Score p ts ≤ 1 := by
  unfold f1Score
  split_ifs with h1 h2
  · norm_num
  · norm_num
  · refine ⟨foldr_max_nonneg _, foldr_max_le_one _ ?_⟩
    intro x hx
    obtain ⟨t, _, rfl⟩ := List.mem_map.mp hx
    exact (tokenF1_bounds _ _).2

/-- A mean of unit-interval values, scaled by 100, lies in [0, 100]. -/
lemma mean100_bounds (l : List ℚ) (h0 : ∀ x ∈ l, 0 ≤ x)
    (h1 : ∀ x ∈ l, x ≤ 1) (n : ℕ) (hn : l.length = n) :
    0 ≤ 100 * l.sum / (n : ℚ) ∧ 100 * l.sum / (n : ℚ) ≤ 100 := by
  subst hn
  have hs0 : 0 ≤ l.sum := List.sum_nonneg h0
  constructor
  · positivity
  · cases l with
    | nil => norm_num
    | cons x xs =>
      have hlen : (0 : ℚ) < ((x :: xs).length : ℚ) := by
        simp only [List.length_cons]
        positivity
      have hs1 : (x :: xs).sum ≤ ((x :: xs).length : ℚ) := by
        have := List.sum_le_card_nsmul (x :: xs) 1 h1
        simpa using this
      rw [div_le_iff₀ hlen]
      nlinarith

/-- The aggregate em of the spec-modelled score lies in [0, 100]. -/
lemma score_em_bounds (pairs : List (String × List String)) :
    0 ≤ (score pairs).em ∧ (score pairs).em ≤ 100 := by
  unfold score
  exact mean100_bounds _
    (fun x hx => by
      obtain ⟨pr, _, rfl⟩ := List.mem_map.mp hx
      exact (exactMatchScore_bounds _ _).1)
    (fun x hx => by
      obtain ⟨pr, _, rfl⟩ := List.mem_map.mp hx
      exact (exactMatchScore_bounds _ _).2)
    pairs.length (List.length_map _ _)

/-- The aggregate f1 of the spec-modelled score lies in [0, 100]. -/
lemma score_f1_bounds (pairs : List (String × List String)) :
    0 ≤ (score pairs).f1 ∧ (score pairs).f1 ≤ 100 := by
  unfold score
  exact mean100_bounds _
    (fun x hx => by
      obtain ⟨pr, _, rfl⟩ := List.mem_map.mp hx
      exact (f1Score_bounds _ _).1)
    (fun x hx => by
      obtain ⟨pr, _, rfl⟩ := List.mem_map.mp hx
      exact (f1Score_bounds _ _).2)
    pairs.length (List.length_map _ _)

/-- C3: if the predictions contain an id with no matching reference, or the
references contain an id with no matching prediction, reconciliation fails
with `MismatchedIdError` — the mismatch is never silently skipped and no
pair list (hence no ScoreReport) is produced, only the error. -/
theorem reconcile_fails_on_mismatched_id (P : List (String × String))
    (R : List Example)
    (h : (∃ p ∈ P, ∀ r ∈ R, r.id ≠ p.1) ∨ (∃ r ∈ R, ∀ p ∈ P, p.1 ≠ r.id)) :
    reconcile P R = Except.error EvalError.MismatchedIdError := by
  unfold reconcile
  rw [if_neg]
  intro hcond
  simp only [Bool.and_eq_true, List.all_eq_true, List.any_eq_true,
    beq_iff_eq] at hcond
  obtain ⟨hA, hB⟩ := hcond
  rcases h with ⟨p, hp, hnone⟩ | ⟨r, hr, hnone⟩
  · obtain ⟨r, hrR, hid⟩ := hA p hp
    exact hnone r hrR hid
  · obtain ⟨p, hpP, hid⟩ := hB r hr
    exact hnone p hpP hid

/-- Witness for C3: a prediction dictionary with id `q99` absent from the
references makes `reconcile` fail with `MismatchedIdError`. -/
theorem reconcile_fails_on_mismatched_id_witness :
    reconcile [("q99", "Paris")]
        [⟨"q1", "Where?", "Paris is here", ⟨["Paris"], [10]⟩⟩] =
      Except.error EvalError.MismatchedIdError :=
  reconcile_fails_on_mismatched_id _ _
    (Or.inl ⟨("q99", "Paris"), by decide, by decide⟩)

/-- C5: a run in which no external call raises writes exactly one file, whose
JSON object carries exactly the two keys `em` and `f1` in that order; `em` is
the metric result's `exact` entry and `f1` its `f1` entry, and with the
spec-modelled squad_v2 metric both lie in [0, 100]. -/
theorem successful_run_writes_single_score_report (fail : Stage → Bool)
    (dd : DatasetDict) (output_model_id : String) (config : Config)
    (pm : List (String × String)) (ds : Dataset)
    (hok : ∀ s, fail s = false)
    (hds : getSplit dd "validation" = some ds) :
    ∃ em f1 : ℚ,
      (train fail dd output_model_id config pm squadV2Compute).filesWritten =
        [(scorePath output_model_id, [("em", em), ("f1", f1)])] ∧
      em = (squadV2Compute (toMetricPredictions pm)
              (toMetricReferences ds)).exact ∧
      f1 = (squadV2Compute (toMetricPredictions pm)
              (toMetricReferences ds)).f1 ∧
      0 ≤ em ∧ em ≤ 100 ∧ 0 ≤ f1 ∧ f1 ≤ 100 := by
  refine ⟨(squadV2Compute (toMetricPredictions pm)
            (toMetricReferences ds)).exact,
          (squadV2Compute (toMetricPredictions pm)
            (toMetricReferences ds)).f1,
          ?_, rfl, rfl, ?_, ?_, ?_, ?_⟩
  · unfold train
    simp [hok, hds, RunEffects.initial, evaluate]
    cases hp : config.push_to_hub <;> simp [RunEffects.initial]
  · exact (score_em_bounds _).1
  · exact (score_em_bounds _).2
  · exact (score_f1_bounds _).1
  · exact (score_f1_bounds _).2

/-- Witness for C5: a concrete successful run writes exactly one score file
with keys em and f1 bounded by [0, 100]. -/
theorem successful_run_writes_single_score_report_witness :
    ∃ em f1 : ℚ,
      (train (fun _ => false) sampleDD "saattrupdan/xlmr-base-texas-squad-da"
          sampleConfig [("q1", "Paris")] squadV2Compute).filesWritten =
        [(scorePath "saattrupdan/xlmr-base-texas-squad-da",
          [("em", em), ("f1", f1)])] ∧
      em = (squadV2Compute (toMetricPredictions [("q1", "Paris")])
              (toMetricReferences ⟨[]⟩)).exact ∧
      f1 = (squadV2Compute (toMetricPredictions [("q1", "Paris")])
              (toMetricReferences ⟨[]⟩)).f1 ∧
      0 ≤ em ∧ em ≤ 100 ∧ 0 ≤ f1 ∧ f1 ≤ 100 :=
  successful_run_writes_single_score_report _ _ _ _ _ ⟨[]⟩
    (fun _ => rfl) (by decide)

/-! ### Lemmas about the Python slash-split -/

/-- Unfolding equation of the slash split on a cons cell. -/
lemma pySplitOnSlash_cons (c : Char) (cs : List Char) :
    pySplitOnSlash (c :: cs) =
      match pySplitOnSlash cs with
      | [] => [[]]
      | r :: rs => if c = '/' then [] :: r :: rs else (c :: r) :: rs := rfl

/-- The slash split never returns an empty list of pieces. -/
lemma pySplitOnSlash_ne_nil (cs : List Char) : pySplitOnSlash cs ≠ [] := by
  cases cs with
  | nil => simp [pySplitOnSlash]
  | cons c cs =>
    unfold pySplitOnSlash
    cases h : pySplitOnSlash cs with
    | nil => simp
    | cons r rs =>
      dsimp only
      split <;> simp

/-- Splitting a slash-free character list yields that single piece. -/
lemma pySplitOnSlash_no_slash (cs : List Char) (h : '/' ∉ cs) :
    pySplitOnSlash cs = [cs] := by
  induction cs with
  | nil => rfl
  | cons c cs ih =>
    have hc : c ≠ '/' := fun hc => h (hc ▸ List.mem_cons_self _ _)
    have hcs : '/' ∉ cs := fun hm => h (List.mem_cons_of_mem _ hm)
    unfold pySplitOnSlash
    rw [ih hcs]
    simp [hc]

/-- A list containing a slash splits into at least two pieces. -/
lemma pySplitOnSlash_length_of_mem (cs : List Char) (h : '/' ∈ cs) :
    2 ≤ (pySplitOnSlash cs).length := by
  induction cs with
  | nil => cases h
  | cons c cs ih =>
    unfold pySplitOnSlash
    cases hsp : pySplitOnSlash cs with
    | nil => exact absurd hsp (pySplitOnSlash_ne_nil cs)
    | cons r rs =>
      by_cases hc : c = '/'
      · simp [hc]
      · have h' : '/' ∈ cs := by
          rcases List.mem_cons.mp h with h | h
          · exact absurd h.symm hc
          · exact h
        have h2 := ih h'
        rw [hsp] at h2
        simp only [if_neg hc]
        simp only [List.length_cons] at h2 ⊢
        omega

/-- The last piece of the split only depends on what follows the last slash. -/
lemma pySplitOnSlash_append_slash (xs ys : List Char) :
    (pySplitOnSlash (xs ++ '/' :: ys)).getLastD [] =
    (pySplitOnSlash ys).getLastD [] := by
  induction xs with
  | nil =>
    simp only [List.nil_append]
    rw [pySplitOnSlash_cons]
    cases hsp : pySplitOnSlash ys with
    | nil => exact absurd hsp (pySplitOnSlash_ne_nil ys)
    | cons r rs => rfl
  | cons x xs ih =>
    have hne := pySplitOnSlash_ne_nil (xs ++ '/' :: ys)
    have hlen : 2 ≤ (pySplitOnSlash (xs ++ '/' :: ys)).length :=
      pySplitOnSlash_length_of_mem _ (by simp)
    show (pySplitOnSlash (x :: (xs ++ '/' :: ys))).getLastD [] = _
    rw [pySplitOnSlash_cons]
    cases hsp : pySplitOnSlash (xs ++ '/' :: ys) with
    | nil => exact absurd hsp hne
    | cons r rs =>
      rw [hsp] at ih hlen
      obtain ⟨r', rs', rfl⟩ : ∃ r' rs', rs = r' :: rs' := by
        cases rs with
        | nil => simp at hlen
        | cons a b => exact ⟨a, b, rfl⟩
      by_cases hx : x = '/'
      · simp only [if_pos hx]
        exact ih
      · simp only [if_neg hx]
        rw [← ih]
        rfl

/-- The last piece of the split never contains a slash. -/
lemma pySplitOnSlash_getLastD_no_slash (cs : List Char) :
    '/' ∉ (pySplitOnSlash cs).getLastD [] := by
  induction cs with
  | nil => simp [pySplitOnSlash]
  | cons c cs ih =>
    unfold pySplitOnSlash
    cases hsp : pySplitOnSlash cs with
    | nil => exact absurd hsp (pySplitOnSlash_ne_nil cs)
    | cons r rs =>
      rw [hsp] at ih
      by_cases hc : c = '/'
      · simp only [if_pos hc]
        exact ih
      · simp only [if_neg hc]
        cases rs with
        | nil =>
          have ih' : '/' ∉ r := ih
          show '/' ∉ c :: r
          intro hmem
          rcases List.mem_cons.mp hmem with h | h
          · exact hc h.symm
          · exact ih' h
        | cons r' rs' => exact ih

/-- C9: the score file path is the substring of `output_model_id` after its
last `/`, with `-scores.jsonl` appended — when the id has no slash the whole
id is used — so only the part after the last slash affects the path; and the
resulting path itself contains no slash, hence names a file in the current
working directory. -/
theorem scorePath_last_component (output_model_id a b : String) :
    ('/' ∉ output_model_id.data →
       scorePath output_model_id = output_model_id ++ "-scores.jsonl") ∧
    (output_model_id = a ++ "/" ++ b → '/' ∉ b.data →
       scorePath output_model_id = b ++ "-scores.jsonl") ∧
    '/' ∉ (scorePath output_model_id).data := by
  refine ⟨?_, ?_, ?_⟩
  · intro h
    unfold scorePath lastSlashComponent
    rw [pySplitOnSlash_no_slash _ h]
    rfl
  · intro hid h
    subst hid
    unfold scorePath lastSlashComponent
    have hdata : (a ++ "/" ++ b).data = a.data ++ '/' :: b.data := by
      simp [String.data_append]
    rw [hdata, pySplitOnSlash_append_slash, pySplitOnSlash_no_slash _ h]
    rfl
  · unfold scorePath lastSlashComponent
    rw [String.data_append]
    intro hmem
    rcases List.mem_append.mp hmem with h | h
    · exact pySplitOnSlash_getLastD_no_slash _ h
    · revert h
      decide

/-- Witness for C9: the concrete output model id used by the script maps to
the score path formed from its part after the slash. -/
theorem scorePath_last_component_witness :
    "saattrupdan/xlmr-base-texas-squad-da" =
        "saattrupdan" ++ "/" ++ "xlmr-base-texas-squad-da" ∧
    scorePath "saattrupdan/xlmr-base-texas-squad-da" =
      "xlmr-base-texas-squad-da" ++ "-scores.jsonl" :=
  ⟨by decide,
   (scorePath_last_component "saattrupdan/xlmr-base-texas-squad-da"
       "saattrupdan" "xlmr-base-texas-squad-da").2.1 (by decide) (by decide)⟩

end ScandiQA
